import Mathlib

/-!
Shallow embedding of the statsig-go-sdk resilience core: the retry engine and
transport (`transport.go`), the error boundary (`error_boundary.go`) and the
diagnostics timeline (`diagnostics.go`).  Side effects are made explicit:
the network is an oracle `Nat → DoResult` giving the outcome of each attempt,
clocks are explicit integer parameters, and a Go nil-pointer dereference is
an `Option` returning `none`.
-/

namespace Statsig

/-! ## Transport and retry engine (transport.go) -/

/-- `backoffMultiplier = 10` from the constant block of transport.go. -/
def backoffMultiplier : Int := 10

/-- `maxRetries = 5` from the constant block of transport.go. -/
def maxRetries : Nat := 5

/-- An HTTP response as the transport observes it: its status code, and the
outcome of `json.NewDecoder(response.Body).Decode(&out)` on its body
(`none` = decoding into the caller's output slot succeeded). -/
structure HttpResponse where
  statusCode : Int
  decodeError : Option String
deriving DecidableEq, Repr

/-- Outcome of one `transport.doRequest` call, mirroring Go's
`(*http.Response, error)` pair: `failure response err` is the `err != nil`
case (the response pointer may or may not be nil), `success response` is the
`err == nil` case, where `http.Client.Do` guarantees a non-nil response. -/
inductive DoResult where
  | failure (response : Option HttpResponse) (err : String)
  | success (response : HttpResponse)
deriving DecidableEq, Repr

/-- The `(*http.Response, bool, error)` triple returned by the closure that
`postRequestInternal` hands to `retry`. -/
structure AttemptOutcome where
  response : Option HttpResponse
  shouldRetry : Bool
  error : Option String
deriving DecidableEq, Repr

/-- What a full `retry` run produces: the returned `(*http.Response, error)`
pair, plus the observable effect trace — how many times the operation was
invoked and the list of `time.Sleep` durations, in order. -/
structure RetryResult where
  response : Option HttpResponse
  error : Option String
  attempts : Nat
  sleeps : List Int
deriving DecidableEq, Repr

/-- The loop of `retry` in transport.go.  `fn` is indexed by the attempt
number to make the side-effecting closure pure; `attempt` is the index of
the attempt about to run; `retries` is the remaining budget (Go's
`retries <= 0` exit corresponds to the `0` case).  Each iteration runs
`fn`, and on `shouldRetry` with budget left sleeps `backoff`, multiplies the
backoff by `backoffMultiplier`, decrements the budget and loops. -/
def retryGo (fn : Nat → AttemptOutcome) (attempt : Nat) :
    Nat → Int → RetryResult
  | 0, _ =>
    let o := fn attempt
    ⟨o.response, o.error, attempt + 1, []⟩
  | retries + 1, backoff =>
    let o := fn attempt
    if o.shouldRetry then
      let rest := retryGo fn (attempt + 1) retries (backoff * backoffMultiplier)
      ⟨rest.response, rest.error, rest.attempts, backoff :: rest.sleeps⟩
    else
      ⟨o.response, o.error, attempt + 1, []⟩

/-- `retry(retries, backoff, fn)` of transport.go. -/
def retry (retries : Nat) (backoff : Int) (fn : Nat → AttemptOutcome) :
    RetryResult :=
  retryGo fn 0 retries backoff

/-- `shouldRetry(code)` of transport.go: the whitelisted status codes. -/
def shouldRetry (code : Int) : Bool :=
  code == 408 || code == 500 || code == 502 || code == 503 ||
  code == 504 || code == 522 || code == 524 || code == 599

/-- The whitelist as a list, for stating membership. -/
def retryWhitelist : List Int := [408, 500, 502, 503, 504, 522, 524, 599]

/-- The closure built inside `postRequestInternal` (transport.go lines
85–97): on `err != nil` it returns `(response, response != nil, err)`; on a
2xx it returns the response with `shouldRetry = false` and the JSON-decode
outcome as the error; on any other status it returns
`(response, shouldRetry(code), "http response error code: <code>")`. -/
def postAttempt (net : Nat → DoResult) (i : Nat) : AttemptOutcome :=
  match net i with
  | .failure response err => ⟨response, response.isSome, some err⟩
  | .success response =>
    if 200 ≤ response.statusCode ∧ response.statusCode < 300 then
      ⟨some response, false, response.decodeError⟩
    else
      ⟨some response, shouldRetry response.statusCode,
        some ("http response error code: " ++ toString response.statusCode)⟩

/-- `time.Second` in nanoseconds, the initial backoff of
`retryablePostRequest`. -/
def timeSecond : Int := 1000000000

/-- `postRequestInternal` of transport.go.  `localMode` is
`transport.options.LocalMode`; `marshalErr` is the outcome of
`json.Marshal(in)` (`none` = success); `net` is the network oracle for
`doRequest`.  Local mode short-circuits before marshalling; a marshal error
returns before any attempt; otherwise the retry engine drives
`postAttempt`. -/
def postRequestInternal (localMode : Bool) (marshalErr : Option String)
    (net : Nat → DoResult) (retries : Nat) (backoff : Int) : RetryResult :=
  if localMode then ⟨none, none, 0, []⟩
  else
    match marshalErr with
    | some e => ⟨none, some e, 0, []⟩
    | none => retry retries backoff (postAttempt net)

/-- `postRequest` of transport.go: zero retries, zero backoff. -/
def postRequest (localMode : Bool) (marshalErr : Option String)
    (net : Nat → DoResult) : RetryResult :=
  postRequestInternal localMode marshalErr net 0 0

/-- `retryablePostRequest` of transport.go: caller-supplied budget, initial
backoff `time.Second`. -/
def retryablePostRequest (localMode : Bool) (marshalErr : Option String)
    (net : Nat → DoResult) (retries : Nat) : RetryResult :=
  postRequestInternal localMode marshalErr net retries timeSecond

/-- Modelled from the spec: `getUnixMilli` is defined outside the given
files; per the spec the `STATSIG-CLIENT-TIME` header carries the client
timestamp in milliseconds since epoch, so on a millisecond clock reading it
is that reading itself. -/
def getUnixMilli (nowMilliseconds : Int) : Int := nowMilliseconds

/-! ## Error boundary (error_boundary.go) -/

/-- The mutable state of `errorBoundary`: the `seen` set of failure
signatures (a Go `map[string]bool` where insertion is membership). -/
structure EBState where
  seen : List String
deriving DecidableEq, Repr

/-- How `logException` renders its `exception error` argument: a nil error
becomes the token `"Unknown"`, otherwise `exception.Error()`, the error's
message. -/
def renderException : Option String → String
  | none => "Unknown"
  | some msg => msg

/-- `checkSeen` of error_boundary.go: atomically tests membership and
inserts, returning whether the signature had been seen before together with
the updated state. -/
def checkSeen (e : EBState) (exceptionString : String) : Bool × EBState :=
  if exceptionString ∈ e.seen then (true, e)
  else (false, ⟨exceptionString :: e.seen⟩)

/-- `logException` of error_boundary.go, returning the new state and
whether a POST to the collector was issued.  A duplicate signature returns
before any network activity.  `json.Marshal` of the two-string request body
and `http.NewRequest` are modelled as succeeding (they cannot fail on this
body and a well-formed collector URL); the POST itself is fire-and-forget,
its outcome ignored. -/
def logException (e : EBState) (exception : Option String) :
    EBState × Bool :=
  let exceptionString := renderException exception
  let seenResult := checkSeen e exceptionString
  if seenResult.1 then (seenResult.2, false)
  else (seenResult.2, true)

/-- A sequence of `logException` calls: returns the final state and, in call
order, each call's rendered signature paired with whether it POSTed. -/
def runLog : EBState → List (Option String) → EBState × List (String × Bool)
  | e, [] => (e, [])
  | e, x :: rest =>
    let step := logException e x
    let tail := runLog step.1 rest
    (tail.1, (renderException x, step.2) :: tail.2)

/-- How many of the recorded calls POSTed with the given signature. -/
def postsFor (sig : String) (log : List (String × Bool)) : Nat :=
  log.countP (fun p => p.1 == sig && p.2)

/-- Modelled from the spec: `toError` (defined outside the given files)
converts the value recovered from a panic into the error handed to
`logException`; per the spec the failure is rendered to its message string,
so a panic with message `msg` yields an error rendering to `msg`. -/
def toError (panicMsg : String) : Option String := some panicMsg

/-- What one error-boundary-wrapped call produces: the value returned to the
caller, the updated dedup state, whether a crash-report POST was sent, and
whether a local log line (`global.Logger().LogError`) was emitted by the
recovery path. -/
structure CaptureOutcome where
  result : Bool
  state : EBState
  posted : Bool
  locallyLogged : Bool
deriving DecidableEq, Repr

/-- `captureCheckGate` of error_boundary.go.  The task either returns a
Bool or panics with a message (`Except.error`).  On normal return the task's
value is returned.  On panic, the deferred `ebRecover` runs: it calls
`logException (toError err)` and `global.Logger().LogError(err)` and the
recovered function returns the zero value `false` of its result type. -/
def captureCheckGate (e : EBState) (task : Except String Bool) :
    CaptureOutcome :=
  match task with
  | .ok b => ⟨b, e, false, false⟩
  | .error msg =>
    let logged := logException e (toError msg)
    ⟨false, logged.1, logged.2, true⟩

/-! ## Diagnostics timeline (diagnostics.go) -/

abbrev DiagnosticsContext := String

def InitializeContext : DiagnosticsContext := "initialize"
def ConfigSyncContext : DiagnosticsContext := "config_sync"

abbrev DiagnosticsKey := String

def DownloadConfigSpecsKey : DiagnosticsKey := "download_config_specs"
def BootstrapKey : DiagnosticsKey := "bootstrap"
def GetIDListSourcesKey : DiagnosticsKey := "get_id_list_sources"
def GetIDListKey : DiagnosticsKey := "get_id_list"
def OverallKey : DiagnosticsKey := "overall"
def DataStoreConfigSpecsKey : DiagnosticsKey := "data_store_config_specs"

abbrev DiagnosticsStep := String

def NetworkRequestStep : DiagnosticsStep := "network_request"
def FetchStep : DiagnosticsStep := "fetch"
def ProcessStep : DiagnosticsStep := "process"

abbrev DiagnosticsAction := String

def StartAction : DiagnosticsAction := "start"
def EndAction : DiagnosticsAction := "end"

/-- The `marker` struct of diagnostics.go: optional pointers are `Option`s
(`none` = nil pointer), `Timestamp` an int64, with the embedded `tags`. -/
structure Marker where
  Key : Option DiagnosticsKey := none
  Step : Option DiagnosticsStep := none
  Action : Option DiagnosticsAction := none
  Timestamp : Int := 0
  Success : Option Bool := none
  StatusCode : Option Int := none
  SDKRegion : Option String := none
  IDListCount : Option Int := none
  URL : Option String := none
deriving DecidableEq, Repr

/-- One per-context timeline (`diagnosticsBase`): the context tag and the
ordered marker slice. -/
structure DiagnosticsBase where
  context : DiagnosticsContext
  markers : List Marker
deriving DecidableEq, Repr

/-- The `diagnostics` pair of timelines. -/
structure Diagnostics where
  initDiagnostics : DiagnosticsBase
  syncDiagnostics : DiagnosticsBase
deriving DecidableEq, Repr

/-- `newDiagnostics()`: both timelines start with their context tag and an
empty marker slice. -/
def newDiagnostics : Diagnostics :=
  ⟨⟨InitializeContext, []⟩, ⟨ConfigSyncContext, []⟩⟩

/-- What `serialize` returns: the map `{context, markers}`. -/
structure SerializedDiagnostics where
  context : DiagnosticsContext
  markers : List Marker
deriving DecidableEq, Repr

/-- `serialize` of diagnostics.go. -/
def serialize (d : DiagnosticsBase) : SerializedDiagnostics :=
  ⟨d.context, d.markers⟩

/-- `clearMarkers` of diagnostics.go: resets the marker slice to nil, which
ranges over nothing and has length zero — the empty list. -/
def clearMarkers (d : DiagnosticsBase) : DiagnosticsBase :=
  { d with markers := [] }

/- Builder setters, each mirroring one chained method of diagnostics.go. -/

def downloadConfigSpecs (m : Marker) : Marker :=
  { m with Key := some DownloadConfigSpecsKey }

def bootstrap (m : Marker) : Marker :=
  { m with Key := some BootstrapKey }

def getIdListSources (m : Marker) : Marker :=
  { m with Key := some GetIDListSourcesKey }

def getIdList (m : Marker) : Marker :=
  { m with Key := some GetIDListKey }

def overall (m : Marker) : Marker :=
  { m with Key := some OverallKey }

def dataStoreConfigSpecs (m : Marker) : Marker :=
  { m with Key := some DataStoreConfigSpecsKey }

def networkRequest (m : Marker) : Marker :=
  { m with Step := some NetworkRequestStep }

def fetch (m : Marker) : Marker :=
  { m with Step := some FetchStep }

def process (m : Marker) : Marker :=
  { m with Step := some ProcessStep }

def start (m : Marker) : Marker :=
  { m with Action := some StartAction }

def end' (m : Marker) : Marker :=
  { m with Action := some EndAction }

def success (m : Marker) (val : Bool) : Marker :=
  { m with Success := some val }

def statusCodeTag (m : Marker) (val : Int) : Marker :=
  { m with StatusCode := some val }

/-- The finalized marker `mark()` appends: the builder's fields with
`Timestamp = time.Now().Unix() * 1000` — whole Unix seconds scaled to
milliseconds. -/
def finalize (m : Marker) (nowSeconds : Int) : Marker :=
  { m with Timestamp := nowSeconds * 1000 }

/-- `mark()` of diagnostics.go: stamps the timestamp and appends the built
marker to the owning timeline under its lock.  The clock reading
(`time.Now().Unix()`, whole seconds) is an explicit parameter. -/
def mark (d : DiagnosticsBase) (m : Marker) (nowSeconds : Int) :
    DiagnosticsBase :=
  { d with markers := d.markers ++ [finalize m nowSeconds] }

/-- `logProcess` of diagnostics.go as run by `mark()`: computes the status
line from the marker's optional fields.  Every Go `*m.Field` dereference is
a monadic bind, so the result is `none` exactly when the Go code
dereferences a nil pointer and panics. -/
def logProcessMsg (m : Marker) : Option String := do
  let key ← m.Key
  if key = OverallKey then
    let action ← m.Action
    if action = StartAction then pure "Starting..."
    else if action = EndAction then pure "Done"
    else pure ""
  else if key = DownloadConfigSpecsKey then
    let step ← m.Step
    if step = NetworkRequestStep then
      let action ← m.Action
      if action = StartAction then pure "Loading specs from network..."
      else if action = EndAction then
        let suc ← m.Success
        if suc then pure "Done loading specs from network"
        else pure "Failed to load specs from network"
      else pure ""
    else if step = ProcessStep then
      let action ← m.Action
      if action = StartAction then pure "Processing specs from network..."
      else if action = EndAction then
        let suc ← m.Success
        if suc then pure "Done processing specs from network"
        else pure "No updates to specs from network"
      else pure ""
    else pure ""
  else if key = DataStoreConfigSpecsKey then
    let step ← m.Step
    if step = FetchStep then
      let action ← m.Action
      if action = StartAction then pure "Loading specs from adapter..."
      else if action = EndAction then
        let suc ← m.Success
        if suc then pure "Done loading specs from adapter"
        else pure "Failed to load specs from adapter"
      else pure ""
    else if step = ProcessStep then
      let action ← m.Action
      if action = StartAction then pure "Processing specs from adapter..."
      else if action = EndAction then
        let suc ← m.Success
        if suc then pure "Done processing specs from adapter"
        else pure "No updates to specs from adapter"
      else pure ""
    else pure ""
  else pure ""

/-- The selector precondition under which `logProcessMsg` never hits a nil
dereference: a key and an action are set, a step is set when the key is
`download_config_specs` or `data_store_config_specs`, and a success tag is
set when such a key's action is `end`. -/
def requiredSelectorsSet (m : Marker) : Prop :=
  m.Key.isSome = true ∧ m.Action.isSome = true ∧
  ((m.Key = some DownloadConfigSpecsKey ∨
    m.Key = some DataStoreConfigSpecsKey) → m.Step.isSome = true) ∧
  ((m.Key = some DownloadConfigSpecsKey ∨
    m.Key = some DataStoreConfigSpecsKey) → m.Action = some EndAction →
    m.Success.isSome = true)

/-! ## Helper lemmas -/

/-- With local mode off and marshalling successful, `postRequestInternal`
is the retry engine driving `postAttempt`. -/
theorem postRequestInternal_live (net : Nat → DoResult) (r : Nat) (b : Int) :
    postRequestInternal false none net r b = retry r b (postAttempt net) :=
  rfl

/-- If the very first attempt reports `shouldRetry = false`, the retry
engine returns it after exactly one attempt and no sleep, for any budget. -/
theorem retry_stops_when_not_retryable (r : Nat) (b : Int)
    (fn : Nat → AttemptOutcome) (h : (fn 0).shouldRetry = false) :
    retry r b fn = ⟨(fn 0).response, (fn 0).error, 1, []⟩ := by
  cases r with
  | zero => simp [retry, retryGo]
  | succ r => simp [retry, retryGo, h]

/-- If every attempt reports `shouldRetry = true`, the loop runs the full
budget: `retryGo` starting at `attempt` makes `retries + 1` further
attempts. -/
theorem retryGo_attempts_all_retryable (fn : Nat → AttemptOutcome)
    (h : ∀ i, (fn i).shouldRetry = true) :
    ∀ (r a : Nat) (b : Int), (retryGo fn a r b).attempts = a + r + 1 := by
  intro r
  induction r with
  | zero => intro a b; simp [retryGo]
  | succ r ih =>
    intro a b
    simp only [retryGo, h, if_true]
    rw [ih]
    omega

/-! ## Theorems for the claims -/

/-- Claim C6: with the transport's `localMode` flag set, `postRequest` and
`retryablePostRequest` return `(nil, nil)` with zero attempts and zero
sleeps, for every marshalling outcome (the short-circuit precedes
serialization) and every network oracle and retry budget. -/
theorem localMode_short_circuit (marshalErr : Option String)
    (net : Nat → DoResult) (r : Nat) :
    postRequest true marshalErr net = ⟨none, none, 0, []⟩ ∧
    retryablePostRequest true marshalErr net r = ⟨none, none, 0, []⟩ :=
  ⟨rfl, rfl⟩

/-- Claim C7: after `clearMarkers()`, `serialize()` yields the unchanged
context tag together with the empty marker list, whatever markers the
timeline held. -/
theorem clearMarkers_then_serialize (d : DiagnosticsBase) :
    serialize (clearMarkers d) = ⟨d.context, []⟩ :=
  rfl

/-- Claim C10: every marker finalized by `mark()` carries
`Timestamp = time.Now().Unix() * 1000`, an exact integer multiple of 1000
(one-second precision in a millisecond-unit field), whereas the
`STATSIG-CLIENT-TIME` request header value is the raw millisecond clock
reading, which need not be a multiple of 1000. -/
theorem marker_timestamp_second_precision (m : Marker) (t : Int) :
    (finalize m t).Timestamp = t * 1000 ∧
    (1000 : Int) ∣ (finalize m t).Timestamp ∧
    ¬ (1000 : Int) ∣ getUnixMilli 1234 := by
  refine ⟨rfl, ⟨t, by simp [finalize, mul_comm]⟩, by decide⟩

/-- A network oracle on which every `doRequest` fails at the transport
level: no HTTP response is received (`nil` response pointer), as for a DNS
failure, a refused connection, or a client timeout. -/
def connectionRefusedNet : Nat → DoResult :=
  fun _ => .failure none "dial tcp: connection refused"

/-- Claim C1 is false on the code: with a retry budget of 3 remaining and
every attempt failing with a transport-level error (no response received),
`retryablePostRequest` makes exactly one attempt and never sleeps — the
closure returns `shouldRetry = response != nil = false`, so such failures
are not retried. -/
theorem transport_error_not_retried :
    (retryablePostRequest false none connectionRefusedNet 3).attempts = 1 ∧
    (retryablePostRequest false none connectionRefusedNet 3).error =
      some "dial tcp: connection refused" ∧
    (retryablePostRequest false none connectionRefusedNet 3).sleeps = [] :=
  ⟨rfl, rfl, rfl⟩

/-- Claim C1 amended: on an attempt failing with an error, the retry
decision is `response != nil` — an error with no response (the
transport-level case) terminates after exactly one attempt for every
budget, while an error accompanied by a response is retried until the
budget is exhausted. -/
theorem transport_error_retry_decision (err : String) (resp : HttpResponse)
    (r : Nat) (b : Int) :
    (postRequestInternal false none (fun _ => .failure none err) r b).attempts
      = 1 ∧
    (postRequestInternal false none (fun _ => .failure none err) r b).error
      = some err ∧
    (postRequestInternal false none
      (fun _ => .failure (some resp) err) r b).attempts = r + 1 := by
  refine ⟨?_, ?_, ?_⟩
  · rw [postRequestInternal_live,
      retry_stops_when_not_retryable r b _ rfl]
  · rw [postRequestInternal_live,
      retry_stops_when_not_retryable r b _ rfl]
    rfl
  · rw [postRequestInternal_live, retry,
      retryGo_attempts_all_retryable _ (fun i => rfl) r 0 b]
    omega

/-- Full characterization of the retry loop from an arbitrary starting
attempt index: bounds on the attempt count, the returned pair is the last
attempt's, every attempt before the last signalled retry, the loop stopped
on a non-retry signal or on budget exhaustion, and the sleeps form the
geometric backoff schedule. -/
theorem retryGo_spec (fn : Nat → AttemptOutcome) :
    ∀ (retries attempt : Nat) (backoff : Int),
      attempt < (retryGo fn attempt retries backoff).attempts ∧
      (retryGo fn attempt retries backoff).attempts ≤ attempt + retries + 1 ∧
      (retryGo fn attempt retries backoff).response =
        (fn ((retryGo fn attempt retries backoff).attempts - 1)).response ∧
      (retryGo fn attempt retries backoff).error =
        (fn ((retryGo fn attempt retries backoff).attempts - 1)).error ∧
      (∀ i, attempt ≤ i →
        i < (retryGo fn attempt retries backoff).attempts - 1 →
        (fn i).shouldRetry = true) ∧
      ((fn ((retryGo fn attempt retries backoff).attempts - 1)).shouldRetry
          = false ∨
        (retryGo fn attempt retries backoff).attempts
          = attempt + retries + 1) ∧
      (retryGo fn attempt retries backoff).sleeps =
        (List.range
            ((retryGo fn attempt retries backoff).attempts - 1 - attempt)).map
          (fun i => backoff * backoffMultiplier ^ i) := by
  intro retries
  induction retries with
  | zero =>
    intro attempt backoff
    refine ⟨by simp [retryGo], by simp [retryGo], by simp [retryGo],
      by simp [retryGo], ?_, ?_, by simp [retryGo]⟩
    · intro i hai hlt
      simp [retryGo] at hlt
      omega
    · right
      simp [retryGo]
  | succ r ih =>
    intro attempt backoff
    by_cases h : (fn attempt).shouldRetry = true
    · obtain ⟨ih1, ih2, ih3, ih4, ih5, ih6, ih7⟩ :=
        ih (attempt + 1) (backoff * backoffMultiplier)
      have hgo : retryGo fn attempt (r + 1) backoff =
          ⟨(retryGo fn (attempt + 1) r (backoff * backoffMultiplier)).response,
           (retryGo fn (attempt + 1) r (backoff * backoffMultiplier)).error,
           (retryGo fn (attempt + 1) r (backoff * backoffMultiplier)).attempts,
           backoff ::
             (retryGo fn (attempt + 1) r
               (backoff * backoffMultiplier)).sleeps⟩ := by
        simp [retryGo, h]
      rw [hgo]
      dsimp only
      refine ⟨by omega, by omega, ih3, ih4, ?_, ?_, ?_⟩
      · intro i hai hlt
        rcases Nat.eq_or_lt_of_le hai with heq | hlt'
        · exact heq ▸ h
        · exact ih5 i hlt' hlt
      · rcases ih6 with h6 | h6
        · exact Or.inl h6
        · exact Or.inr (by omega)
      · have hn : (retryGo fn (attempt + 1) r
            (backoff * backoffMultiplier)).attempts - 1 - attempt =
            ((retryGo fn (attempt + 1) r
              (backoff * backoffMultiplier)).attempts - 1 - (attempt + 1))
              + 1 := by
          omega
        rw [ih7, hn, List.range_succ_eq_map, List.map_cons, List.map_map]
        refine congrArg₂ _ (by simp) ?_
        refine List.map_congr_left (fun i _ => ?_)
        simp only [Function.comp_apply]
        rw [pow_succ]
        ring
    · have h' : (fn attempt).shouldRetry = false := by
        simpa using h
      have hgo : retryGo fn attempt (r + 1) backoff =
          ⟨(fn attempt).response, (fn attempt).error, attempt + 1, []⟩ := by
        simp [retryGo, h']
      rw [hgo]
      dsimp only
      refine ⟨by omega, by omega, by simp, by simp, ?_, ?_, by simp⟩
      · intro i hai hlt
        omega
      · left
        simpa using h'

/-- Claim C2: the retry engine invokes the operation at least once and at
most `r + 1` times, stops exactly when the operation signals
`shouldRetry = false` or the budget is exhausted (every earlier attempt
signalled retry), returns the last attempt's `(result, error)` pair, and
the sleeps between successive attempts are exactly
`b, 10·b, 100·b, …` — multiplier 10, no jitter. -/
theorem retry_engine_contract (r : Nat) (b : Int)
    (fn : Nat → AttemptOutcome) :
    1 ≤ (retry r b fn).attempts ∧
    (retry r b fn).attempts ≤ r + 1 ∧
    (retry r b fn).response =
      (fn ((retry r b fn).attempts - 1)).response ∧
    (retry r b fn).error = (fn ((retry r b fn).attempts - 1)).error ∧
    (∀ i, i < (retry r b fn).attempts - 1 → (fn i).shouldRetry = true) ∧
    ((fn ((retry r b fn).attempts - 1)).shouldRetry = false ∨
      (retry r b fn).attempts = r + 1) ∧
    (retry r b fn).sleeps =
      (List.range ((retry r b fn).attempts - 1)).map
        (fun i => b * backoffMultiplier ^ i) := by
  obtain ⟨h1, h2, h3, h4, h5, h6, h7⟩ := retryGo_spec fn r 0 b
  refine ⟨?_, ?_, ?_, ?_, ?_, ?_, ?_⟩
  all_goals simp only [retry]
  · omega
  · omega
  · exact h3
  · exact h4
  · exact fun i hi => h5 i (Nat.zero_le i) hi
  · simpa using h6
  · simpa using h7

/-- An operation that signals retry on its first two attempts and then
succeeds, for exercising the retry engine at a concrete input. -/
def witnessFn : Nat → AttemptOutcome :=
  fun i =>
    if i < 2 then ⟨none, true, some "transient"⟩
    else ⟨some ⟨200, none⟩, false, none⟩

/-- Witness for the retry-engine contract at budget 5 and backoff 7: three
attempts, sleeps `[7, 70]`, within the `r + 1` bound. -/
theorem retry_engine_contract_witness :
    (retry 5 7 witnessFn).attempts = 3 ∧
    (retry 5 7 witnessFn).sleeps = [7, 70] ∧
    (retry 5 7 witnessFn).attempts ≤ 5 + 1 :=
  ⟨by decide, by decide, (retry_engine_contract 5 7 witnessFn).2.1⟩

/-- Claim C3: a received non-2xx response is marked retryable exactly for
the whitelisted codes `{408, 500, 502, 503, 504, 522, 524, 599}`; with a
non-whitelisted non-2xx status every budget yields exactly one attempt and
the terminal `http response error code` error; with a whitelisted status
the budget is consumed in full; a 2xx response is never retried — one
attempt for every budget, the response is returned and the JSON decode of
its body into the caller's output slot supplies the returned error. -/
theorem status_code_retry_policy (c : Int) (bad wl ok2 : HttpResponse)
    (r : Nat) (b : Int)
    (hbad2 : ¬ (200 ≤ bad.statusCode ∧ bad.statusCode < 300))
    (hbadwl : shouldRetry bad.statusCode = false)
    (hwl2 : ¬ (200 ≤ wl.statusCode ∧ wl.statusCode < 300))
    (hwlwl : shouldRetry wl.statusCode = true)
    (hok : 200 ≤ ok2.statusCode ∧ ok2.statusCode < 300) :
    (shouldRetry c = true ↔ c ∈ retryWhitelist) ∧
    (postAttempt (fun _ => .success bad) 0).shouldRetry = false ∧
    (postRequestInternal false none (fun _ => .success bad) r b).attempts
      = 1 ∧
    (postRequestInternal false none (fun _ => .success bad) r b).error =
      some ("http response error code: " ++ toString bad.statusCode) ∧
    (postAttempt (fun _ => .success wl) 0).shouldRetry = true ∧
    (postRequestInternal false none (fun _ => .success wl) r b).attempts
      = r + 1 ∧
    (postAttempt (fun _ => .success ok2) 0).shouldRetry = false ∧
    (postRequestInternal false none (fun _ => .success ok2) r b).attempts
      = 1 ∧
    (postRequestInternal false none (fun _ => .success ok2) r b).response
      = some ok2 ∧
    (postRequestInternal false none (fun _ => .success ok2) r b).error
      = ok2.decodeError := by
  have hfstbad : (postAttempt (fun _ => .success bad) 0).shouldRetry
      = false := by
    simp [postAttempt, hbad2, hbadwl]
  have hallwl : ∀ i,
      (postAttempt (fun _ => .success wl) i).shouldRetry = true := by
    intro i
    simp [postAttempt, hwl2, hwlwl]
  have hfstok : (postAttempt (fun _ => .success ok2) 0).shouldRetry
      = false := by
    simp [postAttempt, hok]
  refine ⟨?_, hfstbad, ?_, ?_, hallwl 0, ?_, hfstok, ?_, ?_, ?_⟩
  · simp only [shouldRetry, retryWhitelist]
    simp [or_assoc]
  · rw [postRequestInternal_live,
      retry_stops_when_not_retryable r b _ hfstbad]
  · rw [postRequestInternal_live,
      retry_stops_when_not_retryable r b _ hfstbad]
    dsimp only
    simp [postAttempt, hbad2]
  · rw [postRequestInternal_live, retry,
      retryGo_attempts_all_retryable _ hallwl r 0 b]
    omega
  · rw [postRequestInternal_live,
      retry_stops_when_not_retryable r b _ hfstok]
  · rw [postRequestInternal_live,
      retry_stops_when_not_retryable r b _ hfstok]
    dsimp only
    simp [postAttempt, hok]
  · rw [postRequestInternal_live,
      retry_stops_when_not_retryable r b _ hfstok]
    dsimp only
    simp [postAttempt, hok]

/-- Witness for the status-code policy: with 404 one attempt is made at
budget 4; with 503 all five attempts run; a 204 surfaces its body's decode
outcome. -/
theorem status_code_retry_policy_witness :
    (postRequestInternal false none (fun _ => .success ⟨404, none⟩) 4 9).attempts = 1 ∧
    (postRequestInternal false none (fun _ => .success ⟨503, none⟩) 4 9).attempts = 5 ∧
    (postRequestInternal false none (fun _ => .success ⟨204, some "EOF"⟩) 4 9).error = some "EOF" := by
  have h := status_code_retry_policy 503 ⟨404, none⟩ ⟨503, none⟩
    ⟨204, some "EOF"⟩ 4 9 (by decide) (by decide) (by decide) (by decide)
    (by decide)
  exact ⟨h.2.2.1, h.2.2.2.2.2.1, h.2.2.2.2.2.2.2.2.2⟩

/-- Claim C4: over any sequence of `logException` calls, each failure
signature (the rendered message, nil rendered as `"Unknown"`) POSTs to the
collector exactly on its first occurrence not already in the `seen` set —
at most one POST per signature, one per distinct occurring signature from a
fresh boundary — and the `seen` set only ever grows. -/
theorem logException_dedup (e : EBState) (calls : List (Option String))
    (sig : String) :
    postsFor sig (runLog e calls).2 =
      (if sig ∈ calls.map renderException ∧ sig ∉ e.seen then 1 else 0) ∧
    (∀ x ∈ e.seen, x ∈ (runLog e calls).1.seen) ∧
    renderException none = "Unknown" := by
  induction calls generalizing e with
  | nil => simp [runLog, postsFor, renderException]
  | cons x rest ih =>
    by_cases hx : renderException x ∈ e.seen
    · have hrun : runLog e (x :: rest) =
          ((runLog e rest).1,
            (renderException x, false) :: (runLog e rest).2) := by
        simp [runLog, logException, checkSeen, hx]
      obtain ⟨ih1, ih2, _⟩ := ih e
      rw [hrun]
      refine ⟨?_, fun y hy => ih2 y hy, rfl⟩
      simp only [postsFor, List.countP_cons, Bool.and_false, if_false]
      rw [← postsFor]
      rw [ih1]
      by_cases hs : sig = renderException x
      · subst hs
        simp [hx]
      · simp [List.mem_cons, hs]
    · have hrun : runLog e (x :: rest) =
          ((runLog ⟨renderException x :: e.seen⟩ rest).1,
            (renderException x, true) ::
              (runLog ⟨renderException x :: e.seen⟩ rest).2) := by
        simp [runLog, logException, checkSeen, hx]
      obtain ⟨ih1, ih2, _⟩ := ih ⟨renderException x :: e.seen⟩
      rw [hrun]
      refine ⟨?_, ?_, rfl⟩
      · simp only [postsFor, List.countP_cons, Bool.and_true]
        rw [← postsFor]
        rw [ih1]
        by_cases hs : sig = renderException x
        · subst hs
          simp [hx]
        · simp only [List.mem_cons, List.mem_cons] at *
          have hbeq : (renderException x == sig) = false := by
            simp [Ne.symm hs]
          simp [hbeq, hs]
      · intro y hy
        exact ih2 y (by simp [hy])

/-- Witness for the dedup invariant: three calls — twice the same message,
once a nil failure — from a fresh boundary POST once for `"boom"`. -/
theorem logException_dedup_witness :
    postsFor "boom"
        (runLog ⟨[]⟩ [some "boom", some "boom", none]).2 = 1 ∧
    postsFor "Unknown"
        (runLog ⟨[]⟩ [some "boom", some "boom", none]).2 = 1 := by
  have h1 := logException_dedup ⟨[]⟩ [some "boom", some "boom", none] "boom"
  have h2 := logException_dedup ⟨[]⟩ [some "boom", some "boom", none]
    "Unknown"
  refine ⟨?_, ?_⟩
  · rw [h1.1]
    decide
  · rw [h2.1]
    decide

/-- Claim C5: a task that panics inside the gate-check wrapper never
propagates the panic — the wrapper returns the Bool zero value `false` —
and wrapping a task panicking with the same message twice in sequence
sends exactly one crash-report POST (the first), while the local log line
is emitted on both recoveries; a normally returning task passes its value
through with no report and no recovery log. -/
theorem captureCheckGate_recovery (e : EBState) (msg : String) (b : Bool)
    (h : msg ∉ e.seen) :
    (captureCheckGate e (.error msg)).result = false ∧
    (captureCheckGate e (.error msg)).posted = true ∧
    (captureCheckGate e (.error msg)).locallyLogged = true ∧
    (captureCheckGate (captureCheckGate e (.error msg)).state
      (.error msg)).result = false ∧
    (captureCheckGate (captureCheckGate e (.error msg)).state
      (.error msg)).posted = false ∧
    (captureCheckGate (captureCheckGate e (.error msg)).state
      (.error msg)).locallyLogged = true ∧
    (captureCheckGate e (.ok b)).result = b ∧
    (captureCheckGate e (.ok b)).posted = false := by
  refine ⟨rfl, ?_, rfl, rfl, ?_, rfl, rfl, rfl⟩
  · simp [captureCheckGate, logException, checkSeen, toError,
      renderException, h]
  · simp [captureCheckGate, logException, checkSeen, toError,
      renderException, h]

/-- Witness: a fresh boundary wrapping a task that panics with `"boom"`
twice — one POST, two recoveries, both calls returning `false`. -/
theorem captureCheckGate_recovery_witness :
    (captureCheckGate ⟨[]⟩ (.error "boom")).result = false ∧
    (captureCheckGate ⟨[]⟩ (.error "boom")).posted = true ∧
    (captureCheckGate (captureCheckGate ⟨[]⟩ (.error "boom")).state
      (.error "boom")).posted = false ∧
    (captureCheckGate (captureCheckGate ⟨[]⟩ (.error "boom")).state
      (.error "boom")).locallyLogged = true := by
  have h := captureCheckGate_recovery ⟨[]⟩ "boom" true (by decide)
  exact ⟨h.1, h.2.1, h.2.2.2.2.1, h.2.2.2.2.2.1⟩

/-- The builder chain `downloadConfigSpecs().networkRequest().start()`. -/
def startNetworkMarker : Marker :=
  start (networkRequest (downloadConfigSpecs {}))

/-- The builder chain
`downloadConfigSpecs().networkRequest().end().success(true)`. -/
def endNetworkMarker : Marker :=
  success (end' (networkRequest (downloadConfigSpecs {}))) true

/-- Claim C8: finalizing `start(download_config_specs, network_request)`
and then `end(download_config_specs, network_request, success=true)` on one
timeline appends the two markers in exactly that order, with identical key
and step, differing action (`start` then `end`), and — the clock being
monotone across the two `mark()` calls — non-decreasing timestamps. -/
theorem diagnostics_start_end_scenario (d : DiagnosticsBase) (t1 t2 : Int)
    (h : t1 ≤ t2) :
    (mark (mark d startNetworkMarker t1) endNetworkMarker t2).markers =
      d.markers ++
        [finalize startNetworkMarker t1, finalize endNetworkMarker t2] ∧
    (finalize startNetworkMarker t1).Key =
      (finalize endNetworkMarker t2).Key ∧
    (finalize startNetworkMarker t1).Key = some DownloadConfigSpecsKey ∧
    (finalize startNetworkMarker t1).Step =
      (finalize endNetworkMarker t2).Step ∧
    (finalize startNetworkMarker t1).Step = some NetworkRequestStep ∧
    (finalize startNetworkMarker t1).Action = some StartAction ∧
    (finalize endNetworkMarker t2).Action = some EndAction ∧
    (finalize startNetworkMarker t1).Action ≠
      (finalize endNetworkMarker t2).Action ∧
    (finalize endNetworkMarker t2).Success = some true ∧
    (finalize startNetworkMarker t1).Timestamp ≤
      (finalize endNetworkMarker t2).Timestamp := by
  refine ⟨by simp [mark], rfl, rfl, rfl, rfl, rfl, rfl, ?_, rfl, ?_⟩
  · dsimp [finalize]
    decide
  · show t1 * 1000 ≤ t2 * 1000
    omega

/-- Witness: on the fresh config-sync timeline, marking at seconds 3 then
5 appends the start and end markers in order with timestamps 3000 and
5000. -/
theorem diagnostics_start_end_scenario_witness :
    (mark (mark newDiagnostics.syncDiagnostics startNetworkMarker 3)
        endNetworkMarker 5).markers =
      [finalize startNetworkMarker 3, finalize endNetworkMarker 5] ∧
    (finalize startNetworkMarker 3).Timestamp = 3000 ∧
    (finalize endNetworkMarker 5).Timestamp = 5000 := by
  have h := diagnostics_start_end_scenario newDiagnostics.syncDiagnostics
    3 5 (by decide)
  exact ⟨h.1, rfl, rfl⟩

/-- Claim C9 is false as stated: the claimed selector precondition is not
necessary for panic-freedom, because `logProcess` does not dereference
`Action`, `Step` or `Success` unconditionally — a marker whose key is
`bootstrap` with no action selector at all (so it omits a selector the
claim calls required) produces the empty status line without any nil
dereference. -/
theorem logProcess_no_action_no_panic :
    (bootstrap {}).Key = some BootstrapKey ∧
    (bootstrap {}).Action = none ∧
    ¬ requiredSelectorsSet (bootstrap {}) ∧
    logProcessMsg (bootstrap {}) = some "" := by
  refine ⟨rfl, rfl, ?_, by decide⟩
  intro h
  simpa [bootstrap] using h.2.1

/-- Claim C9 amended: the selector precondition — key and action set, a
step when the key is `download_config_specs` or `data_store_config_specs`,
a success tag when such a key's action is `end` — is sufficient for
`logProcess` to finish without a nil dereference, and the key selector is
genuinely mandatory (a marker with a nil key always dereferences nil); but
the other selectors are dereferenced only in the `overall` /
`download_config_specs` / `data_store_config_specs` branches, so the
precondition is not necessary. -/
theorem logProcess_selector_preconditions (m bad : Marker)
    (hm : requiredSelectorsSet m) (hbad : bad.Key = none) :
    (logProcessMsg m).isSome = true ∧ logProcessMsg bad = none := by
  obtain ⟨hk, ha, hs, hsc⟩ := hm
  obtain ⟨k, hkey⟩ := Option.isSome_iff_exists.mp hk
  obtain ⟨a, hact⟩ := Option.isSome_iff_exists.mp ha
  refine ⟨?_, by simp [logProcessMsg, hbad]⟩
  by_cases h1 : k = OverallKey
  · subst h1
    simp [logProcessMsg, hkey, hact]
    try split_ifs <;> simp
  · by_cases h2 : k = DownloadConfigSpecsKey
    · subst h2
      obtain ⟨s, hstep⟩ := Option.isSome_iff_exists.mp (hs (Or.inl hkey))
      by_cases hae : a = EndAction
      · subst hae
        obtain ⟨suc, hsuc⟩ := Option.isSome_iff_exists.mp
          (hsc (Or.inl hkey) hact)
        simp [logProcessMsg, hkey, hstep, hact, hsuc,
          DownloadConfigSpecsKey, OverallKey, DataStoreConfigSpecsKey,
          NetworkRequestStep, ProcessStep, FetchStep, StartAction,
          EndAction]
        try split_ifs <;> simp
      · simp [logProcessMsg, hkey, hstep, hact,
          DownloadConfigSpecsKey, OverallKey, DataStoreConfigSpecsKey,
          NetworkRequestStep, ProcessStep, FetchStep, StartAction,
          EndAction]
        try split_ifs <;> simp_all [EndAction]
    · by_cases h3 : k = DataStoreConfigSpecsKey
      · subst h3
        obtain ⟨s, hstep⟩ := Option.isSome_iff_exists.mp (hs (Or.inr hkey))
        by_cases hae : a = EndAction
        · subst hae
          obtain ⟨suc, hsuc⟩ := Option.isSome_iff_exists.mp
            (hsc (Or.inr hkey) hact)
          simp [logProcessMsg, hkey, hstep, hact, hsuc,
            DownloadConfigSpecsKey, OverallKey, DataStoreConfigSpecsKey,
            NetworkRequestStep, ProcessStep, FetchStep, StartAction,
            EndAction]
          try split_ifs <;> simp
        · simp [logProcessMsg, hkey, hstep, hact,
            DownloadConfigSpecsKey, OverallKey, DataStoreConfigSpecsKey,
            NetworkRequestStep, ProcessStep, FetchStep, StartAction,
            EndAction]
          try split_ifs <;> simp_all [EndAction]
      · simp [logProcessMsg, hkey, h1, h2, h3]

/-- Witness: a fully selected end marker satisfies the precondition and
renders its line; a marker with no key at all hits the nil dereference. -/
theorem logProcess_selector_preconditions_witness :
    (logProcessMsg
        (success (end' (networkRequest (downloadConfigSpecs {}))) true)).isSome
      = true ∧
    logProcessMsg {} = none := by
  have h := logProcess_selector_preconditions
    (success (end' (networkRequest (downloadConfigSpecs {}))) true) {}
    (by refine ⟨rfl, rfl, fun _ => rfl, fun _ _ => rfl⟩) rfl
  exact h

end Statsig
